import Mathlib

/-
Verification development for the chat client (src/unnamed/part_002, a React
component). The session state that the component keeps in React useState
hooks is embedded as an explicit record, and every event handler becomes a
pure state transformer. External side effects (window.alert, file download,
the network call) are tracked in an explicit effects record; the environment
(API key configuration and the outcome of the single fetch) is a parameter.
Fresh message ids (generateMessageId) and creation times (new Date()) are
nondeterministic in the source, so they are passed as parameters to each
operation that creates a message.
-/

namespace ChatSpec

/-- Message.role : user | assistant | system. -/
inductive Role where
  | user
  | assistant
  | system
deriving DecidableEq

/-- The Message record of the source. Optional fields are Options; the two
optional booleans (isCommand, isPinned) are modeled as Bool because the code
only ever tests their JS truthiness, under which undefined and false agree.
Date is modeled as Nat. -/
structure Message where
  role : Role
  content : String
  timestamp : Option Nat
  isCommand : Bool
  id : Option String
  isPinned : Bool
deriving DecidableEq

/-- The theme string enum. -/
inductive Theme where
  | light
  | dark
deriving DecidableEq

/-- The component state: one field per useState hook that the modeled
handlers read or write. The refs (messagesEndRef, recognitionRef) and the
long press timer are presentation machinery and carry no session data. -/
structure ChatState where
  messages : List Message
  input : String
  isLoading : Bool
  inputHistory : List String
  historyIndex : Int
  showTemplates : Bool
  showExport : Bool
  isListening : Bool
  isVoiceSupported : Bool
  showPinnedPanel : Bool
  pinnedMessages : List Message
  theme : Theme
deriving DecidableEq

/-- Observable side effects outside the component state: window.alert calls,
file downloads performed by exportChat, and whether fetch was invoked. -/
structure Effects where
  alerts : List String := []
  downloads : Nat := 0
  apiCalled : Bool := false
deriving DecidableEq

/-- Result of a full submission lifecycle: the settled state plus effects. -/
structure SubmitResult where
  state : ChatState
  effects : Effects
deriving DecidableEq

/-- Keys relevant to handleKeyDown. -/
inductive Key where
  | arrowUp
  | arrowDown
  | other
deriving DecidableEq

/-- The names registered in the slashCommands object literal. -/
inductive CommandKey where
  | help
  | clear
  | about
  | theme
  | save
  | stats
  | reset
  | templates
  | voice
  | pinned
deriving DecidableEq

/-- Shape of the response payload: data.candidates?.[0]?.content?.parts?.[0]?.text.
Every level is optional, mirroring the optional chaining in the source. -/
structure GenPart where
  text : Option String
deriving DecidableEq

structure GenContent where
  parts : Option (List GenPart)
deriving DecidableEq

structure GenCandidate where
  content : Option GenContent
deriving DecidableEq

structure GenerateContentResponse where
  candidates : Option (List GenCandidate)
deriving DecidableEq

/-- Outcome of the single fetch: a 2xx with parsed JSON, a non-2xx status
(the code then throws), or a thrown network error. -/
inductive ApiResult where
  | ok (payload : GenerateContentResponse)
  | httpError (status : Nat)
  | networkError
deriving DecidableEq

/-- Environment of a submission: import.meta.env.VITE_GEMINI_API_KEY (absent
or a string) and what the remote endpoint would answer. -/
structure ApiEnv where
  apiKey : Option String
  result : ApiResult
deriving DecidableEq

/-! JS string primitives used by the handlers, modeled over List Char. -/

/-- Whitespace as trimmed by String#trim (ASCII whitespace suffices here). -/
def isJsSpace (c : Char) : Bool := c.isWhitespace

/-- Characters of s.trim(): drop whitespace at both ends. -/
def trimChars (cs : List Char) : List Char :=
  ((cs.dropWhile isJsSpace).reverse.dropWhile isJsSpace).reverse

/-- JS input.trim(). -/
def jsTrim (s : String) : String := ⟨trimChars s.data⟩

/-- JS s.toLowerCase() (ASCII case folding; the command names are ASCII). -/
def jsToLower (s : String) : String := ⟨s.data.map Char.toLower⟩

/-- JS input.startsWith with the slash argument: true iff the first character is the slash. -/
def startsWithSlash (s : String) : Bool :=
  match s.data with
  | [] => false
  | c :: _ => c == '/'

/-- JS s.replace('/', ''): remove the first occurrence of '/'. -/
def removeFirstSlashAux : List Char → List Char
  | [] => []
  | c :: cs => if c = '/' then cs else c :: removeFirstSlashAux cs

def removeFirstSlash (s : String) : String := ⟨removeFirstSlashAux s.data⟩

/-- JS array indexing arr[i] used by handleKeyDown. On the guarded paths the
index is always in range; out of range would be undefined in JS and is
defaulted to "" here. -/
def jsGet (xs : List String) (i : Int) : String :=
  if 0 ≤ i then xs.getD i.toNat "" else ""

/-- JS (x || d) on an optional number: undefined and 0 are falsy. -/
def jsOrNat : Option Nat → Nat → Nat
  | none, d => d
  | some v, d => if v = 0 then d else v

/-- JS (x || d) on an optional string: undefined and "" are falsy. -/
def jsOrString : Option String → String → String
  | none, d => d
  | some t, d => if t = "" then d else t

/-- JS truthiness of message.id: undefined and "" are falsy. -/
def idTruthy : Option String → Bool
  | none => false
  | some s => !(s == "")

/-- JS truthiness of the configured API key. -/
def keyTruthy : Option String → Bool
  | none => false
  | some k => !(k == "")

/-! Message constructors. The source builds each message inline; fresh is
the generateMessageId() value and now the new Date() value. -/

/-- A system message as built by the command actions (isCommand: true). -/
def mkSys (content fresh : String) (now : Nat) : Message :=
  { role := Role.system, content := content, timestamp := some now,
    isCommand := true, id := some fresh, isPinned := false }

/-- The user message built by handleSubmit. -/
def mkUser (content uid : String) (t : Nat) : Message :=
  { role := Role.user, content := content, timestamp := some t,
    isCommand := false, id := some uid, isPinned := false }

/-- The assistant messages built by handleSubmit. -/
def mkAssistant (content aid : String) (t : Nat) : Message :=
  { role := Role.assistant, content := content, timestamp := some t,
    isCommand := false, id := some aid, isPinned := false }

/-! The literal texts of the command actions. -/

def helpText : String :=
  "Available Commands:\n        \n📋 **/help** - Show this help message\n🗑️ **/clear** - Clear all messages\nℹ️ **/about** - About this chat application\n🎨 **/theme** - Toggle between light/dark theme\n💾 **/save** - Export current chat\n📊 **/stats** - Show chat statistics\n🔄 **/reset** - Reset chat and start fresh\n📝 **/templates** - Show prompt templates\n🎤 **/voice** - Toggle voice input (if supported)\n📌 **/pinned** - Show pinned messages panel\n\nType any command to execute it!"

def clearText : String := "🗑️ Chat cleared successfully!"

def aboutText : String :=
  "🤖 **AI Chat Assistant**\n        \nBuilt with React + TypeScript + Tailwind CSS\nPowered by Google Gemini AI API\n\nFeatures:\n• 💬 Real-time chat with AI\n• 🎤 Voice input support\n• 📝 Prompt templates\n• 📤 Chat export\n• 🎨 Dark/light theme\n• ⌨️ Slash commands\n• 📌 Pinned messages\n• 📱 Responsive design\n\nVersion: 1.0.0\nMade with ❤️ for better AI interactions"

def saveText : String := "💾 Chat exported successfully!"

def resetText : String := "🔄 Chat reset successfully! Ready for a fresh conversation."

def voiceUnsupportedText : String :=
  "🎤 Voice input is not supported in your browser. Please use Chrome, Edge, or Safari."

def voiceStoppedText : String := "🎤 Voice input stopped."

def voiceStartedText : String := "🎤 Voice input started. Speak now!"

def exportAlertText : String := "No messages to export!"

def apiKeyMissingText : String :=
  "API key not found. Set VITE_GEMINI_API_KEY in your .env file."

def fallbackErrorText : String := "Sorry, I encountered an error. Please try again."

def noResponseText : String := "No response from model."

/-- Content of the theme command message; computed from the theme captured
before toggling, like the closure in the source. -/
def themeText (old : Theme) : String :=
  "🎨 Theme switched to " ++ (if old = Theme.light then "dark" else "light") ++ " mode!"

/-- Content of the pinned command message; uses the panel flag captured
before toggling. -/
def pinnedText (oldShown : Bool) : String :=
  "📌 Pinned messages panel " ++ (if oldShown then "hidden" else "shown") ++ "!"

/-- Abstraction of Date#toLocaleString for the stats text. -/
def localeString (t : Nat) : String := toString t

/-- The PromptTemplate record. -/
structure PromptTemplate where
  name : String
  prompt : String
  category : String
deriving DecidableEq

def promptTemplates : List PromptTemplate :=
  [ { name := "Code Review",
      prompt := "Please review this code and provide feedback on best practices, potential bugs, and improvements:",
      category := "Development" },
    { name := "Writing Assistant",
      prompt := "Help me write a professional email about:",
      category := "Writing" },
    { name := "Problem Solver",
      prompt := "I\x27m facing this problem: [describe your problem]. Can you help me brainstorm solutions?",
      category := "General" },
    { name := "Learning Helper",
      prompt := "Explain [topic] in simple terms with examples:",
      category := "Education" },
    { name := "Creative Writing",
      prompt := "Write a short story about:",
      category := "Creative" },
    { name := "Data Analysis",
      prompt := "Analyze this data and provide insights:",
      category := "Analytics" } ]

def templatesText : String :=
  "📝 **Available Prompt Templates**\n        \n" ++
    String.intercalate "\n\n" (promptTemplates.map (fun t =>
      "**" ++ t.name ++ "** (" ++ t.category ++ ")\n  " ++ t.prompt)) ++
    "\n\nClick the 📝 button in the header to use these templates!"

/-- statsText as assembled by the stats action. -/
def statsText (s : ChatState) (now : Nat) : String :=
  "📊 **Chat Statistics**\n        \nTotal Messages: " ++
    toString s.messages.length ++
    "\nUser Messages: " ++
    toString (s.messages.filter (fun m => decide (m.role = Role.user))).length ++
    "\nAI Responses: " ++
    toString (s.messages.filter (fun m => decide (m.role = Role.assistant))).length ++
    "\nSystem Messages: " ++
    toString (s.messages.filter (fun m => decide (m.role = Role.system))).length ++
    "\nPinned Messages: " ++ toString s.pinnedMessages.length ++
    "\n\nSession started: " ++
    (match s.messages with
     | [] => "N/A"
     | m :: _ => localeString (jsOrNat m.timestamp now))

/-- toggleTheme. -/
def toggleTheme : Theme → Theme
  | Theme.light => Theme.dark
  | Theme.dark => Theme.light

/-- Fresh component state as initialized by the useState hooks. The initial
theme comes from localStorage or the media query; light is taken as the
representative value, no claim depends on it. -/
def initialState : ChatState :=
  { messages := [], input := "", isLoading := false, inputHistory := [],
    historyIndex := -1, showTemplates := false, showExport := false,
    isListening := false, isVoiceSupported := false, showPinnedPanel := false,
    pinnedMessages := [], theme := Theme.light }

/-- Append a system feedback message, the common tail of every command action. -/
def appendSys (content fresh : String) (now : Nat) (s : ChatState) : ChatState :=
  { s with messages := s.messages ++ [mkSys content fresh now] }

/-- togglePinMessage. The guard is the JS truthiness of message.id; the
branch is chosen by the isPinned flag of the message object that the caller
passes (the rendered message). Unpin filters the pinned list by id and clears
the flag on every main list entry with that id; pin appends a flagged copy
and sets the flag on every main list entry with that id. -/
def togglePinMessage (message : Message) (s : ChatState) : ChatState :=
  if idTruthy message.id = false then s
  else if message.isPinned then
    { s with
      pinnedMessages := s.pinnedMessages.filter (fun m => decide (m.id ≠ message.id)),
      messages := s.messages.map (fun m =>
        if m.id = message.id then { m with isPinned := false } else m) }
  else
    { s with
      pinnedMessages := s.pinnedMessages ++ [{ message with isPinned := true }],
      messages := s.messages.map (fun m =>
        if m.id = message.id then { m with isPinned := true } else m) }

/-- A sequence of Toggle Pin calls, left to right. -/
def togglePinSeq (msgs : List Message) (s : ChatState) : ChatState :=
  msgs.foldl (fun st m => togglePinMessage m st) s

/-- The pin consistency invariant of the spec: the isPinned flag on a message
in the main list holds exactly when some pinned entry carries the same id. -/
abbrev PinInvariant (s : ChatState) : Prop :=
  ∀ m ∈ s.messages, (m.isPinned = true ↔ ∃ p ∈ s.pinnedMessages, p.id = m.id)

/-- startListening: alerts and aborts when unsupported, else sets the
listening flag and starts capture (the recognition callbacks are async UI
plumbing outside the session state). -/
def startListening (s : ChatState) : ChatState × Effects :=
  if s.isVoiceSupported = false then
    (s, { alerts := ["Speech recognition is not supported in your browser. Please use Chrome, Edge, or Safari."] })
  else
    ({ s with isListening := true }, {})

/-- stopListening. -/
def stopListening (s : ChatState) : ChatState × Effects :=
  ({ s with isListening := false }, {})

/-- exportChat: with no messages it alerts and returns without creating a
file; otherwise it assembles the text, triggers one download and closes the
export modal. The downloaded file content and name live outside the
component state and are recorded only as a download count. -/
def exportChat (s : ChatState) : ChatState × Effects :=
  if s.messages.length = 0 then
    (s, { alerts := [exportAlertText] })
  else
    ({ s with showExport := false }, { downloads := 1 })

/-- The action of each registered slash command, from the slashCommands
object literal. Each appends exactly one system message; clear and reset
first replace the message list (setMessages([]) followed by a functional
append yields the one element list). -/
def runCommand (k : CommandKey) (fresh : String) (now : Nat) (s : ChatState) :
    ChatState × Effects :=
  match k with
  | CommandKey.help => (appendSys helpText fresh now s, {})
  | CommandKey.clear => ({ s with messages := [mkSys clearText fresh now] }, {})
  | CommandKey.about => (appendSys aboutText fresh now s, {})
  | CommandKey.theme =>
      (appendSys (themeText s.theme) fresh now { s with theme := toggleTheme s.theme }, {})
  | CommandKey.save =>
      let r := exportChat s
      (appendSys saveText fresh now r.1, r.2)
  | CommandKey.stats => (appendSys (statsText s now) fresh now s, {})
  | CommandKey.reset =>
      ({ s with messages := [mkSys resetText fresh now],
                inputHistory := [], historyIndex := -1 }, {})
  | CommandKey.templates => (appendSys templatesText fresh now s, {})
  | CommandKey.voice =>
      if s.isVoiceSupported = false then
        (appendSys voiceUnsupportedText fresh now s, {})
      else if s.isListening then
        let r := stopListening s
        (appendSys voiceStoppedText fresh now r.1, r.2)
      else
        let r := startListening s
        (appendSys voiceStartedText fresh now r.1, r.2)
  | CommandKey.pinned =>
      (appendSys (pinnedText s.showPinnedPanel) fresh now
        { s with showPinnedPanel := !s.showPinnedPanel }, {})

/-- The registry lookup slashCommands[commandKey] on the normalized name. -/
def lookupCommand (k : String) : Option CommandKey :=
  if k = "help" then some CommandKey.help
  else if k = "clear" then some CommandKey.clear
  else if k = "about" then some CommandKey.about
  else if k = "theme" then some CommandKey.theme
  else if k = "save" then some CommandKey.save
  else if k = "stats" then some CommandKey.stats
  else if k = "reset" then some CommandKey.reset
  else if k = "templates" then some CommandKey.templates
  else if k = "voice" then some CommandKey.voice
  else if k = "pinned" then some CommandKey.pinned
  else none

/-- command.toLowerCase().trim() followed by .replace('/', ''). -/
def normalizeCommand (command : String) : String :=
  removeFirstSlash (jsTrim (jsToLower command))

/-- handleSlashCommand: dispatch a known command or append the unknown
command system message; both paths return true (handled). This models the
returning paths of the source; the TypeError the source throws when the
property read hits an inherited Object.prototype name is carried by
handleSlashCommandJs further below. -/
def handleSlashCommand (command fresh : String) (now : Nat) (s : ChatState) :
    (ChatState × Effects) × Bool :=
  match lookupCommand (normalizeCommand command) with
  | some k => (runCommand k fresh now s, true)
  | none =>
      (({ s with messages := s.messages ++
            [mkSys ("❌ Unknown command: " ++ command ++
              "\nType /help to see available commands.") fresh now] }, {}), true)

/-- handleKeyDown: ArrowUp and ArrowDown history navigation. Note that the
second ArrowUp branch of the source is unreachable: historyIndex = -1 with a
nonempty history already satisfies the first guard. -/
def handleKeyDown (key : Key) (s : ChatState) : ChatState :=
  match key with
  | Key.arrowUp =>
      if s.historyIndex < (s.inputHistory.length : Int) - 1 then
        let newIndex := s.historyIndex + 1
        { s with historyIndex := newIndex,
                 input := jsGet s.inputHistory
                   ((s.inputHistory.length : Int) - 1 - newIndex) }
      else if s.historyIndex = -1 ∧ 0 < s.inputHistory.length then
        { s with historyIndex := 0,
                 input := jsGet s.inputHistory ((s.inputHistory.length : Int) - 1) }
      else s
  | Key.arrowDown =>
      if 0 < s.historyIndex then
        let newIndex := s.historyIndex - 1
        { s with historyIndex := newIndex,
                 input := jsGet s.inputHistory
                   ((s.inputHistory.length : Int) - 1 - newIndex) }
      else if s.historyIndex = 0 then
        { s with historyIndex := -1, input := "" }
      else s
  | Key.other => s

/-- data.candidates?.[0]?.content?.parts?.[0]?.text as an optional chain. -/
def extractGeneratedText (d : GenerateContentResponse) : Option String :=
  ((((d.candidates.bind List.head?).bind GenCandidate.content).bind
      GenContent.parts).bind List.head?).bind GenPart.text

/-- The assistant content on a 2xx: the extracted text, with the JS || giving
the placeholder when the chain is undefined or the text is empty. -/
def generatedTextOf (d : GenerateContentResponse) : String :=
  jsOrString (extractGeneratedText d) noResponseText

/-- handleSubmit, the full submission lifecycle up to the point where the
request settles. Blank input is a no op. A slash input is dispatched and the
buffer cleared (handleSlashCommand always reports handled). Otherwise the
user message is appended, the trimmed input is prepended to the history
unless it equals the current head, the cursor resets, the buffer clears and
loading starts; then either the missing key message is appended after the
fixed 1000 ms delay (no fetch), or the fetch settles into the extracted
assistant message (2xx) or the fallback error message (throw or non 2xx),
with loading cleared in the finally block in every case. uid/aid are the two
generated message ids, t1/t2 the two creation times. -/
def handleSubmit (env : ApiEnv) (uid aid : String) (t1 t2 : Nat)
    (s : ChatState) : SubmitResult :=
  if jsTrim s.input = "" then { state := s, effects := {} }
  else if startsWithSlash s.input then
    let d := handleSlashCommand s.input uid t1 s
    { state := { d.1.1 with input := "" }, effects := d.1.2 }
  else
    let s1 : ChatState :=
      { s with
        messages := s.messages ++ [mkUser s.input uid t1],
        inputHistory :=
          if s.inputHistory.head? = some (jsTrim s.input) then s.inputHistory
          else jsTrim s.input :: s.inputHistory,
        historyIndex := -1, input := "", isLoading := true }
    if keyTruthy env.apiKey = false then
      { state := { s1 with
          messages := s1.messages ++ [mkAssistant apiKeyMissingText aid t2],
          isLoading := false },
        effects := {} }
    else
      match env.result with
      | ApiResult.ok p =>
          { state := { s1 with
              messages := s1.messages ++ [mkAssistant (generatedTextOf p) aid t2],
              isLoading := false },
            effects := { apiCalled := true } }
      | ApiResult.httpError _ =>
          { state := { s1 with
              messages := s1.messages ++ [mkAssistant fallbackErrorText aid t2],
              isLoading := false },
            effects := { apiCalled := true } }
      | ApiResult.networkError =>
          { state := { s1 with
              messages := s1.messages ++ [mkAssistant fallbackErrorText aid t2],
              isLoading := false },
            effects := { apiCalled := true } }

/-- Whether the fetch outcome lands in the catch block. -/
def isErrorResult : ApiResult → Bool
  | ApiResult.ok _ => false
  | ApiResult.httpError _ => true
  | ApiResult.networkError => true

/-! Full JS semantics of the registry read. handleSlashCommand and
handleSubmit above model the returning paths of the source; the property
read slashCommands[commandKey] in the source is a plain JS object access,
which also finds the inherited properties of Object.prototype. Those are
truthy (functions or an object), pass the if (slashCommands[commandKey])
test, and have no action field, so slashCommands[commandKey].action() throws
TypeError before any state update. The definitions below carry that error
path. -/

/-- The property names an object literal inherits from Object.prototype.
Each resolves to a truthy value under bracket access. -/
def objectPrototypeProps : List String :=
  ["constructor", "hasOwnProperty", "isPrototypeOf", "propertyIsEnumerable",
   "toLocaleString", "toString", "valueOf", "__defineGetter__",
   "__defineSetter__", "__lookupGetter__", "__lookupSetter__", "__proto__"]

/-- Outcome of the JS property read slashCommands[commandKey]: an own
registered key, a truthy inherited Object.prototype property, or undefined. -/
inductive JsLookup where
  | registered (k : CommandKey)
  | inheritedProperty
  | undefinedProp
deriving DecidableEq

/-- slashCommands[commandKey] with the prototype chain included. Own keys
shadow nothing in Object.prototype, so checking them first is equivalent to
the JS resolution order. -/
def jsCommandLookup (k : String) : JsLookup :=
  match lookupCommand k with
  | some c => JsLookup.registered c
  | none =>
      if k ∈ objectPrototypeProps then JsLookup.inheritedProperty
      else JsLookup.undefinedProp

/-- What a call of handleSlashCommand does: return a value, or never return
because slashCommands[commandKey].action() threw TypeError. -/
inductive DispatchOutcome where
  | returned (r : (ChatState × Effects) × Bool)
  | typeError
deriving DecidableEq

/-- handleSlashCommand under the full JS lookup: a registered name runs its
action, an inherited Object.prototype name passes the truthiness test and
the action call throws with no state change, anything else takes the unknown
command branch. -/
def handleSlashCommandJs (command fresh : String) (now : Nat) (s : ChatState) :
    DispatchOutcome :=
  match jsCommandLookup (normalizeCommand command) with
  | JsLookup.registered k => DispatchOutcome.returned (runCommand k fresh now s, true)
  | JsLookup.inheritedProperty => DispatchOutcome.typeError
  | JsLookup.undefinedProp =>
      DispatchOutcome.returned
        (({ s with messages := s.messages ++
            [mkSys ("❌ Unknown command: " ++ command ++
              "\nType /help to see available commands.") fresh now] }, {}), true)

/-- Outcome of a submission under the full JS lookup: the component state
after the event, the effects, and whether an uncaught TypeError escaped the
handler. When it threw, no state update had run: the state is unchanged and
in particular setInput never cleared the buffer. -/
structure SubmitOutcome where
  state : ChatState
  effects : Effects
  threw : Bool
deriving DecidableEq

/-- The state handleSubmit leaves after routing a slash input to dispatch:
the dispatched state with the buffer cleared when dispatch returned, the
untouched state when the action call threw. -/
def dispatchState (command fresh : String) (now : Nat) (s : ChatState) : ChatState :=
  match handleSlashCommandJs command fresh now s with
  | DispatchOutcome.returned d => { d.1.1 with input := "" }
  | DispatchOutcome.typeError => s

/-- handleSubmit under the full JS lookup. Only the slash branch differs
from handleSubmit: a thrown action call escapes before setInput; non slash
inputs behave exactly as handleSubmit. -/
def handleSubmitJs (env : ApiEnv) (uid aid : String) (t1 t2 : Nat)
    (s : ChatState) : SubmitOutcome :=
  if jsTrim s.input = "" then { state := s, effects := {}, threw := false }
  else if startsWithSlash s.input then
    match handleSlashCommandJs s.input uid t1 s with
    | DispatchOutcome.returned d =>
        { state := { d.1.1 with input := "" }, effects := d.1.2, threw := false }
    | DispatchOutcome.typeError => { state := s, effects := {}, threw := true }
  else
    let r := handleSubmit env uid aid t1 t2 s
    { state := r.state, effects := r.effects, threw := false }

/-! Concrete fixtures used by the witness and counterexample theorems. -/

/-- History ["b", "a"] stored most recent first, cursor not browsing. -/
def navState0 : ChatState := { initialState with inputHistory := ["b", "a"] }

def navState1 : ChatState := handleKeyDown Key.arrowUp navState0

def navState2 : ChatState := handleKeyDown Key.arrowUp navState1

def navState3 : ChatState := handleKeyDown Key.arrowUp navState2

def pinMsgA : Message :=
  { role := Role.user, content := "hello", timestamp := some 1,
    isCommand := false, id := some "m1", isPinned := false }

def noIdMsg : Message :=
  { role := Role.user, content := "anonymous", timestamp := none,
    isCommand := false, id := none, isPinned := false }

def pinState : ChatState := { initialState with messages := [pinMsgA] }

def envMissing : ApiEnv := { apiKey := none, result := ApiResult.networkError }

def envHttpError : ApiEnv := { apiKey := some "k", result := ApiResult.httpError 500 }

/-- A 2xx payload whose text field is present but is the empty string. -/
def emptyTextPayload : GenerateContentResponse :=
  { candidates := some [{ content := some { parts := some [{ text := some "" }] } }] }

def envEmptyText : ApiEnv := { apiKey := some "k", result := ApiResult.ok emptyTextPayload }

def okPayload : GenerateContentResponse :=
  { candidates := some [{ content := some { parts := some [{ text := some "hi there" }] } }] }

def envOk : ApiEnv := { apiKey := some "k", result := ApiResult.ok okPayload }

def blankState : ChatState := { initialState with input := "   " }

def unknownCmdState : ChatState :=
  { initialState with input := "/x", inputHistory := ["keep"] }

def resetCexState : ChatState :=
  { initialState with input := "/reset", inputHistory := ["x"] }

def plainMsgState : ChatState := { initialState with input := "hello" }

/-- The system message the unknown command "/x" produces (ids fixed by the
witness instantiation). -/
def unknownXMsg : Message :=
  mkSys ("❌ Unknown command: /x\nType /help to see available commands.") "u1" 7

def flibState : ChatState := { initialState with input := "/flibbertigibbet" }

def unknownFlibMsg : Message :=
  mkSys ("❌ Unknown command: /flibbertigibbet\nType /help to see available commands.") "u2" 9

/-- Input whose normalized name hits the inherited constructor property. -/
def protoCexState : ChatState := { initialState with input := "/constructor" }

/-- Input whose normalized name hits the inherited proto accessor. -/
def dunderCexState : ChatState := { initialState with input := "/__proto__" }

/-! Helper lemmas. -/

/-- dropWhile keeps something as soon as the list holds an element the
predicate rejects. -/
theorem dropWhile_ne_nil_of_mem {p : Char → Bool} {l : List Char} {x : Char}
    (hx : x ∈ l) (hpx : p x = false) : l.dropWhile p ≠ [] := by
  induction l with
  | nil => cases hx
  | cons a t ih =>
      rw [List.dropWhile_cons]
      by_cases ha : p a = true
      · simp only [ha, if_true]
        rcases List.mem_cons.mp hx with rfl | hxt
        · rw [ha] at hpx; cases hpx
        · exact ih hxt
      · simp only [ha, if_false]
        exact List.cons_ne_nil a t

/-- An input that starts with the slash does not trim to the empty string. -/
theorem jsTrim_ne_empty_of_slash (s : String) (h : startsWithSlash s = true) :
    jsTrim s ≠ "" := by
  unfold startsWithSlash at h
  rcases hd : s.data with _ | ⟨c, rest⟩
  · rw [hd] at h; cases h
  · rw [hd] at h
    have hc : c = '/' := by simpa using h
    subst hc
    intro heq
    have hdata : trimChars s.data = [] := by
      have h2 := congrArg String.data heq
      simpa [jsTrim] using h2
    rw [hd] at hdata
    unfold trimChars at hdata
    have h1 : ('/' :: rest).dropWhile isJsSpace = '/' :: rest := by
      rw [List.dropWhile_cons]
      simp [isJsSpace, Char.isWhitespace]
    rw [h1] at hdata
    have h2 : ('/' :: rest).reverse.dropWhile isJsSpace ≠ [] := by
      apply dropWhile_ne_nil_of_mem (x := '/')
      · simp
      · decide
    rw [List.reverse_eq_nil_iff] at hdata
    exact h2 hdata

/-- One Toggle Pin call preserves the pin invariant. -/
theorem togglePin_preserves_inv (msg : Message) (s : ChatState)
    (hinv : PinInvariant s) : PinInvariant (togglePinMessage msg s) := by
  by_cases hid : idTruthy msg.id = false
  · unfold togglePinMessage
    rw [if_pos hid]
    exact hinv
  · by_cases hp : msg.isPinned = true
    · have ht : togglePinMessage msg s =
          { s with
            pinnedMessages := s.pinnedMessages.filter (fun m => decide (m.id ≠ msg.id)),
            messages := s.messages.map (fun m =>
              if m.id = msg.id then { m with isPinned := false } else m) } := by
        unfold togglePinMessage
        rw [if_neg hid, if_pos hp]
      rw [ht]
      intro m hm
      simp only [List.mem_map] at hm
      obtain ⟨m0, hm0, rfl⟩ := hm
      by_cases h0 : m0.id = msg.id
      · rw [if_pos h0]
        constructor
        · intro hfalse; simp at hfalse
        · rintro ⟨p, hpmem, hpid⟩
          rw [List.mem_filter] at hpmem
          have hne : p.id ≠ msg.id := by simpa using hpmem.2
          exact absurd (hpid.trans h0) hne
      · rw [if_neg h0]
        have base := hinv m0 hm0
        constructor
        · intro hpin
          obtain ⟨p, hpmem, hpid⟩ := base.mp hpin
          refine ⟨p, List.mem_filter.mpr ⟨hpmem, ?_⟩, hpid⟩
          simp only [decide_eq_true_eq]
          intro hc
          exact h0 (by rw [← hpid]; exact hc)
        · rintro ⟨p, hpmem, hpid⟩
          rw [List.mem_filter] at hpmem
          exact base.mpr ⟨p, hpmem.1, hpid⟩
    · have ht : togglePinMessage msg s =
          { s with
            pinnedMessages := s.pinnedMessages ++ [{ msg with isPinned := true }],
            messages := s.messages.map (fun m =>
              if m.id = msg.id then { m with isPinned := true } else m) } := by
        unfold togglePinMessage
        rw [if_neg hid, if_neg hp]
      rw [ht]
      intro m hm
      simp only [List.mem_map] at hm
      obtain ⟨m0, hm0, rfl⟩ := hm
      by_cases h0 : m0.id = msg.id
      · rw [if_pos h0]
        constructor
        · intro _
          refine ⟨{ msg with isPinned := true },
            List.mem_append_right _ (List.mem_singleton_self _), ?_⟩
          show msg.id = m0.id
          exact h0.symm
        · intro _
          rfl
      · rw [if_neg h0]
        have base := hinv m0 hm0
        constructor
        · intro hpin
          obtain ⟨p, hpmem, hpid⟩ := base.mp hpin
          exact ⟨p, List.mem_append_left _ hpmem, hpid⟩
        · rintro ⟨p, hpmem, hpid⟩
          rcases List.mem_append.mp hpmem with hL | hR
          · exact base.mpr ⟨p, hL, hpid⟩
          · exfalso
            have hpe : p = { msg with isPinned := true } := List.mem_singleton.mp hR
            rw [hpe] at hpid
            exact h0 (by rw [← hpid])

/-- Every sequence of Toggle Pin calls preserves the pin invariant. -/
theorem togglePinSeq_preserves_inv (msgs : List Message) (s : ChatState)
    (hinv : PinInvariant s) : PinInvariant (togglePinSeq msgs s) := by
  induction msgs generalizing s with
  | nil => exact hinv
  | cons m ms ih =>
      have h1 := togglePin_preserves_inv m s hinv
      exact ih (togglePinMessage m s) h1

/-! Claim theorems. -/

/-- C1: For every sequence of Toggle Pin calls starting from a state where
the pin invariant holds, the isPinned flag on a message in the messages list
is true if and only if a message with the same id is present in
pinnedMessages; and a Toggle Pin call on a message whose id is JS falsy
(absent or empty) changes neither collection. -/
theorem togglePin_invariant_claim (msgs : List Message) (noId : Message)
    (s : ChatState) (hinv : PinInvariant s) (hid : idTruthy noId.id = false) :
    PinInvariant (togglePinSeq msgs s) ∧ togglePinMessage noId s = s := by
  refine ⟨togglePinSeq_preserves_inv msgs s hinv, ?_⟩
  unfold togglePinMessage
  rw [if_pos hid]

/-- Witness for C1: two Toggle Pin calls on a concrete pinned/unpinned state
keep the invariant, and a toggle on a message with no id is a no op. -/
theorem togglePin_invariant_claim_witness :
    PinInvariant pinState ∧ idTruthy noIdMsg.id = false ∧
      (PinInvariant (togglePinSeq [pinMsgA, pinMsgA] pinState) ∧
        togglePinMessage noIdMsg pinState = pinState) :=
  ⟨by decide, by decide,
    togglePin_invariant_claim [pinMsgA, pinMsgA] noIdMsg pinState
      (by decide) (by decide)⟩

/-- C2 counterexample: with inputHistory = ["b", "a"] (most recent first) and
historyIndex = -1, the first ArrowUp navigation sets the buffer to "a" (the
entry at position length - 1 - 0), not to "b" as the claim states. -/
theorem history_nav_counterexample :
    navState1.input = "a" ∧ ¬(navState1.input = "b") := by
  constructor
  · decide
  · decide

/-- C2 amended: with inputHistory = ["b", "a"] and historyIndex = -1, one
ArrowUp sets the buffer to "a", a second sets it to "b", a third changes
nothing; and whenever the cursor is below the last index, ArrowUp advances it
and sets the buffer to the entry at position length - 1 - newIndex. -/
theorem history_nav_amended (s : ChatState)
    (h : s.historyIndex < (s.inputHistory.length : Int) - 1) :
    (navState1.input = "a" ∧ navState1.historyIndex = 0) ∧
    (navState2.input = "b" ∧ navState2.historyIndex = 1) ∧
    navState3 = navState2 ∧
    (handleKeyDown Key.arrowUp s).historyIndex = s.historyIndex + 1 ∧
    (handleKeyDown Key.arrowUp s).input =
      jsGet s.inputHistory ((s.inputHistory.length : Int) - 1 - (s.historyIndex + 1)) := by
  have hstep : handleKeyDown Key.arrowUp s =
      { s with historyIndex := s.historyIndex + 1,
               input := jsGet s.inputHistory
                 ((s.inputHistory.length : Int) - 1 - (s.historyIndex + 1)) } := by
    simp only [handleKeyDown]
    rw [if_pos h]
  refine ⟨by decide, by decide, by decide, ?_, ?_⟩ <;> rw [hstep]

/-- Witness for C2 amended at the concrete two entry history. -/
theorem history_nav_amended_witness :
    navState0.historyIndex < (navState0.inputHistory.length : Int) - 1 ∧
      ((navState1.input = "a" ∧ navState1.historyIndex = 0) ∧
       (navState2.input = "b" ∧ navState2.historyIndex = 1) ∧
       navState3 = navState2 ∧
       (handleKeyDown Key.arrowUp navState0).historyIndex = navState0.historyIndex + 1 ∧
       (handleKeyDown Key.arrowUp navState0).input =
         jsGet navState0.inputHistory
           ((navState0.inputHistory.length : Int) - 1 - (navState0.historyIndex + 1))) :=
  ⟨by decide, history_nav_amended navState0 (by decide)⟩

/-- A member of a list with one system message appended is an old member or
is not user role. -/
theorem mem_append_sys {l : List Message} {m : Message} {c f : String} {n : Nat}
    (hm : m ∈ l ++ [mkSys c f n]) : m ∈ l ∨ m.role ≠ Role.user := by
  rcases List.mem_append.mp hm with h1 | h1
  · exact Or.inl h1
  · right
    rw [List.mem_singleton.mp h1]
    simp [mkSys]

/-- The sole element of a singleton system message list is not user role. -/
theorem mem_single_sys {m : Message} {c f : String} {n : Nat}
    (hm : m ∈ [mkSys c f n]) : m.role ≠ Role.user := by
  rw [List.mem_singleton.mp hm]
  simp [mkSys]

/-- No command action invokes the remote client. -/
theorem runCommand_apiCalled (k : CommandKey) (fresh : String) (now : Nat)
    (s : ChatState) : (runCommand k fresh now s).2.apiCalled = false := by
  cases k <;>
    simp only [runCommand, exportChat, startListening, stopListening] <;>
    (try split_ifs) <;> rfl

/-- Every message in the state after a command action was already present or
is not a user message. -/
theorem runCommand_messages_mem (k : CommandKey) (fresh : String) (now : Nat)
    (s : ChatState) (m : Message)
    (hm : m ∈ (runCommand k fresh now s).1.messages) :
    m ∈ s.messages ∨ m.role ≠ Role.user := by
  cases k
  case help => exact mem_append_sys hm
  case clear => exact Or.inr (mem_single_sys hm)
  case about => exact mem_append_sys hm
  case theme => exact mem_append_sys hm
  case save =>
    simp only [runCommand, exportChat] at hm
    split_ifs at hm
    · exact mem_append_sys hm
    · exact mem_append_sys hm
  case stats => exact mem_append_sys hm
  case reset => exact Or.inr (mem_single_sys hm)
  case templates => exact mem_append_sys hm
  case voice =>
    simp only [runCommand, startListening, stopListening] at hm
    split_ifs at hm
    · exact mem_append_sys hm
    · exact mem_append_sys hm
    · exact mem_append_sys hm
  case pinned => exact mem_append_sys hm

/-- Only the reset action touches inputHistory. -/
theorem runCommand_inputHistory (k : CommandKey) (fresh : String) (now : Nat)
    (s : ChatState) (hk : k ≠ CommandKey.reset) :
    (runCommand k fresh now s).1.inputHistory = s.inputHistory := by
  cases k
  case reset => exact absurd rfl hk
  all_goals
    simp only [runCommand, exportChat, startListening, stopListening] <;>
      (try split_ifs) <;> rfl

/-- Only the name reset maps to the reset action. -/
theorem lookupCommand_reset {n : String}
    (h : lookupCommand n = some CommandKey.reset) : n = "reset" := by
  unfold lookupCommand at h
  split_ifs at h <;> simp_all

/-- C3: submitting input whose trimmed text is empty is a complete no op:
the state is unchanged (so nothing is appended, the history and cursor stay
put and isLoading keeps its value, in particular false) and no effect
happens, in particular no network request. -/
theorem submit_blank_noop (env : ApiEnv) (uid aid : String) (t1 t2 : Nat)
    (s : ChatState) (h : jsTrim s.input = "") :
    handleSubmit env uid aid t1 t2 s = { state := s, effects := {} } := by
  unfold handleSubmit
  rw [if_pos h]

/-- Witness for C3 at whitespace only input. -/
theorem submit_blank_noop_witness :
    jsTrim blankState.input = "" ∧
      handleSubmit envMissing "u1" "a1" 5 6 blankState =
        { state := blankState, effects := {} } :=
  ⟨by decide, submit_blank_noop envMissing "u1" "a1" 5 6 blankState (by decide)⟩

/-- The registered case of the JS lookup comes from the registry. -/
theorem jsCommandLookup_registered {n : String} {k : CommandKey}
    (h : jsCommandLookup n = JsLookup.registered k) : lookupCommand n = some k := by
  unfold jsCommandLookup at h
  rcases hl : lookupCommand n with _ | c
  · rw [hl] at h
    split_ifs at h
  · rw [hl] at h
    injection h with h2
    rw [h2]

/-- C4 counterexample: submitting "/reset" with nonempty inputHistory leaves
inputHistory empty (the dispatched reset action mutates it), and submitting
"/__proto__" hits a truthy inherited Object.prototype property, so the
action call throws TypeError, the state is untouched and the input buffer is
never cleared. -/
theorem submit_command_counterexample :
    (startsWithSlash resetCexState.input = true ∧
     resetCexState.inputHistory = ["x"] ∧
     (handleSubmitJs envMissing "u1" "a1" 0 1 resetCexState).state.inputHistory = [] ∧
     ¬((handleSubmitJs envMissing "u1" "a1" 0 1 resetCexState).state.inputHistory
         = resetCexState.inputHistory)) ∧
    (startsWithSlash dunderCexState.input = true ∧
     (handleSubmitJs envMissing "u1" "a1" 0 1 dunderCexState).threw = true ∧
     (handleSubmitJs envMissing "u1" "a1" 0 1 dunderCexState).state = dunderCexState ∧
     ¬((handleSubmitJs envMissing "u1" "a1" 0 1 dunderCexState).state.input = "")) :=
  ⟨⟨by decide, by decide, by decide, by decide⟩,
   ⟨by decide, by decide, by decide, by decide⟩⟩

/-- C4 amended: for every input that begins with the command prefix, Submit
never appends a user role message and never invokes the Remote Completion
Client, and the input is routed to command dispatch; if the normalized name
is a truthy inherited Object.prototype property (constructor, proto and the
like) the action call throws TypeError and the state is left untouched, in
particular the buffer stays uncleared; otherwise the input buffer is
cleared. The submit path itself never prepends to inputHistory —
inputHistory is unchanged unless the dispatched command is reset, whose own
action empties it. -/
theorem submit_command_claim (env : ApiEnv) (uid aid : String) (t1 t2 : Nat)
    (s : ChatState) (m : Message)
    (h : startsWithSlash s.input = true)
    (hm : m ∈ (handleSubmitJs env uid aid t1 t2 s).state.messages) :
    (handleSubmitJs env uid aid t1 t2 s).effects.apiCalled = false ∧
    (m ∈ s.messages ∨ m.role ≠ Role.user) ∧
    (handleSubmitJs env uid aid t1 t2 s).state = dispatchState s.input uid t1 s ∧
    ((handleSubmitJs env uid aid t1 t2 s).threw = false →
      (handleSubmitJs env uid aid t1 t2 s).state.input = "") ∧
    ((handleSubmitJs env uid aid t1 t2 s).threw = true ↔
      jsCommandLookup (normalizeCommand s.input) = JsLookup.inheritedProperty) ∧
    ((handleSubmitJs env uid aid t1 t2 s).threw = true →
      (handleSubmitJs env uid aid t1 t2 s).state = s) ∧
    (normalizeCommand s.input ≠ "reset" →
      (handleSubmitJs env uid aid t1 t2 s).state.inputHistory = s.inputHistory) := by
  have htrim := jsTrim_ne_empty_of_slash s.input h
  rcases hk : jsCommandLookup (normalizeCommand s.input) with k | _ | _
  · have hd : handleSlashCommandJs s.input uid t1 s =
        DispatchOutcome.returned (runCommand k uid t1 s, true) := by
      unfold handleSlashCommandJs
      rw [hk]
    have hsub : handleSubmitJs env uid aid t1 t2 s =
        { state := { (runCommand k uid t1 s).1 with input := "" },
          effects := (runCommand k uid t1 s).2, threw := false } := by
      unfold handleSubmitJs
      rw [if_neg htrim, if_pos h, hd]
    have hds : dispatchState s.input uid t1 s =
        { (runCommand k uid t1 s).1 with input := "" } := by
      unfold dispatchState
      rw [hd]
    rw [hsub] at hm
    rw [hsub, hds]
    refine ⟨runCommand_apiCalled k uid t1 s, ?_, rfl, fun _ => rfl, ?_, ?_, ?_⟩
    · exact runCommand_messages_mem k uid t1 s m hm
    · simp
    · intro htrue
      simp at htrue
    · intro hne
      have hkr : k ≠ CommandKey.reset := by
        intro hEq
        rw [hEq] at hk
        exact hne (lookupCommand_reset (jsCommandLookup_registered hk))
      exact runCommand_inputHistory k uid t1 s hkr
  · have hd : handleSlashCommandJs s.input uid t1 s = DispatchOutcome.typeError := by
      unfold handleSlashCommandJs
      rw [hk]
    have hsub : handleSubmitJs env uid aid t1 t2 s =
        { state := s, effects := {}, threw := true } := by
      unfold handleSubmitJs
      rw [if_neg htrim, if_pos h, hd]
    have hds : dispatchState s.input uid t1 s = s := by
      unfold dispatchState
      rw [hd]
    rw [hsub] at hm
    rw [hsub, hds]
    refine ⟨rfl, Or.inl hm, rfl, ?_, ?_, fun _ => rfl, fun _ => rfl⟩
    · intro hfalse
      simp at hfalse
    · simp
  · have hd : handleSlashCommandJs s.input uid t1 s =
        DispatchOutcome.returned
          (({ s with messages := s.messages ++
              [mkSys ("❌ Unknown command: " ++ s.input ++
                "\nType /help to see available commands.") uid t1] }, {}), true) := by
      unfold handleSlashCommandJs
      rw [hk]
    have hsub : handleSubmitJs env uid aid t1 t2 s =
        { state := { s with
            messages := s.messages ++
              [mkSys ("❌ Unknown command: " ++ s.input ++
                "\nType /help to see available commands.") uid t1],
            input := "" },
          effects := {}, threw := false } := by
      unfold handleSubmitJs
      rw [if_neg htrim, if_pos h, hd]
    have hds : dispatchState s.input uid t1 s =
        { s with
          messages := s.messages ++
            [mkSys ("❌ Unknown command: " ++ s.input ++
              "\nType /help to see available commands.") uid t1],
          input := "" } := by
      unfold dispatchState
      rw [hd]
    rw [hsub] at hm
    rw [hsub, hds]
    refine ⟨rfl, ?_, rfl, fun _ => rfl, ?_, ?_, fun _ => rfl⟩
    · exact mem_append_sys hm
    · simp
    · intro htrue
      simp at htrue

/-- Witness for C4 amended at the unknown command "/x". -/
theorem submit_command_claim_witness :
    startsWithSlash unknownCmdState.input = true ∧
    unknownXMsg ∈ (handleSubmitJs envMissing "u1" "a1" 7 8 unknownCmdState).state.messages ∧
    ((handleSubmitJs envMissing "u1" "a1" 7 8 unknownCmdState).effects.apiCalled = false ∧
     (unknownXMsg ∈ unknownCmdState.messages ∨ unknownXMsg.role ≠ Role.user) ∧
     (handleSubmitJs envMissing "u1" "a1" 7 8 unknownCmdState).state =
       dispatchState unknownCmdState.input "u1" 7 unknownCmdState ∧
     ((handleSubmitJs envMissing "u1" "a1" 7 8 unknownCmdState).threw = false →
       (handleSubmitJs envMissing "u1" "a1" 7 8 unknownCmdState).state.input = "") ∧
     ((handleSubmitJs envMissing "u1" "a1" 7 8 unknownCmdState).threw = true ↔
       jsCommandLookup (normalizeCommand unknownCmdState.input) = JsLookup.inheritedProperty) ∧
     ((handleSubmitJs envMissing "u1" "a1" 7 8 unknownCmdState).threw = true →
       (handleSubmitJs envMissing "u1" "a1" 7 8 unknownCmdState).state = unknownCmdState) ∧
     (normalizeCommand unknownCmdState.input ≠ "reset" →
       (handleSubmitJs envMissing "u1" "a1" 7 8 unknownCmdState).state.inputHistory =
         unknownCmdState.inputHistory)) :=
  ⟨by decide, by decide,
    submit_command_claim envMissing "u1" "a1" 7 8 unknownCmdState unknownXMsg
      (by decide) (by decide)⟩

/-- C5: evaluation of the program at the failing input "/constructor". The
normalized name constructor is not in the command registry, yet the JS
property read finds the truthy inherited Object.prototype constructor, so
the truthiness test passes and the action call throws TypeError: dispatch
never returns handled, no unknown command message is appended, nothing
reaches the remote client only because the whole handler dies, and the
buffer is never cleared. For contrast, the genuinely undefined name
"/flibbertigibbet" does take the unknown command branch and appends exactly
the one system message with the /help hint. -/
theorem unknown_command_prototype_bug :
    (normalizeCommand protoCexState.input = "constructor" ∧
     lookupCommand (normalizeCommand protoCexState.input) = none ∧
     jsCommandLookup (normalizeCommand protoCexState.input) = JsLookup.inheritedProperty ∧
     handleSlashCommandJs protoCexState.input "u1" 7 protoCexState =
       DispatchOutcome.typeError ∧
     (handleSubmitJs envMissing "u1" "a1" 7 8 protoCexState).threw = true ∧
     (handleSubmitJs envMissing "u1" "a1" 7 8 protoCexState).state = protoCexState ∧
     (handleSubmitJs envMissing "u1" "a1" 7 8 protoCexState).effects.apiCalled = false) ∧
    (handleSlashCommandJs flibState.input "u2" 9 flibState =
       DispatchOutcome.returned
         (({ flibState with messages := [unknownFlibMsg] }, {}), true) ∧
     unknownFlibMsg.role = Role.system) :=
  ⟨⟨by decide, by decide, by decide, by decide, by decide, by decide, by decide⟩,
   ⟨by decide, by decide⟩⟩

/-- C6: for a submitted non command message with a configured key, isLoading
is false once the call settles whatever the outcome; and when the fetch
throws or the status is not 2xx, exactly one assistant message carrying the
fixed fallback apology text is appended after the user message. -/
theorem submit_remote_failure_claim (env : ApiEnv) (uid aid : String)
    (t1 t2 : Nat) (s : ChatState)
    (h1 : jsTrim s.input ≠ "") (h2 : startsWithSlash s.input = false)
    (h3 : keyTruthy env.apiKey = true) :
    (handleSubmit env uid aid t1 t2 s).state.isLoading = false ∧
    (isErrorResult env.result = true →
      (handleSubmit env uid aid t1 t2 s).state.messages =
        s.messages ++ [mkUser s.input uid t1, mkAssistant fallbackErrorText aid t2]) ∧
    (mkAssistant fallbackErrorText aid t2).role = Role.assistant := by
  unfold handleSubmit
  rw [if_neg h1, if_neg (by simp [h2]), if_neg (by simp [h3])]
  refine ⟨?_, ?_, rfl⟩
  · cases henv : env.result <;> rfl
  · cases henv : env.result with
    | ok p => intro hE; simp [isErrorResult] at hE
    | httpError st => intro _; simp [List.append_assoc]
    | networkError => intro _; simp [List.append_assoc]

/-- Witness for C6 at a 500 response. -/
theorem submit_remote_failure_claim_witness :
    jsTrim plainMsgState.input ≠ "" ∧
    startsWithSlash plainMsgState.input = false ∧
    keyTruthy envHttpError.apiKey = true ∧
    ((handleSubmit envHttpError "u1" "a1" 2 3 plainMsgState).state.isLoading = false ∧
     (isErrorResult envHttpError.result = true →
       (handleSubmit envHttpError "u1" "a1" 2 3 plainMsgState).state.messages =
         plainMsgState.messages ++
           [mkUser plainMsgState.input "u1" 2, mkAssistant fallbackErrorText "a1" 3]) ∧
     (mkAssistant fallbackErrorText "a1" 3).role = Role.assistant) :=
  ⟨by decide, by decide, by decide,
    submit_remote_failure_claim envHttpError "u1" "a1" 2 3 plainMsgState
      (by decide) (by decide) (by decide)⟩

/-- C7: with the API key configuration absent (or empty, which JS treats the
same), submitting a non command message appends the missing key assistant
message (after the fixed 1000 ms delay, modeled as the settled outcome),
clears isLoading and performs no network request. -/
theorem submit_missing_key_claim (env : ApiEnv) (uid aid : String)
    (t1 t2 : Nat) (s : ChatState)
    (h1 : jsTrim s.input ≠ "") (h2 : startsWithSlash s.input = false)
    (h3 : keyTruthy env.apiKey = false) :
    (handleSubmit env uid aid t1 t2 s).state.messages =
      s.messages ++ [mkUser s.input uid t1, mkAssistant apiKeyMissingText aid t2] ∧
    (handleSubmit env uid aid t1 t2 s).state.isLoading = false ∧
    (handleSubmit env uid aid t1 t2 s).effects.apiCalled = false ∧
    (mkAssistant apiKeyMissingText aid t2).role = Role.assistant := by
  unfold handleSubmit
  rw [if_neg h1, if_neg (by simp [h2]), if_pos h3]
  refine ⟨?_, rfl, rfl, rfl⟩
  simp [List.append_assoc]

/-- Witness for C7 with no configured key. -/
theorem submit_missing_key_claim_witness :
    jsTrim plainMsgState.input ≠ "" ∧
    startsWithSlash plainMsgState.input = false ∧
    keyTruthy envMissing.apiKey = false ∧
    ((handleSubmit envMissing "u1" "a1" 2 3 plainMsgState).state.messages =
       plainMsgState.messages ++
         [mkUser plainMsgState.input "u1" 2, mkAssistant apiKeyMissingText "a1" 3] ∧
     (handleSubmit envMissing "u1" "a1" 2 3 plainMsgState).state.isLoading = false ∧
     (handleSubmit envMissing "u1" "a1" 2 3 plainMsgState).effects.apiCalled = false ∧
     (mkAssistant apiKeyMissingText "a1" 3).role = Role.assistant) :=
  ⟨by decide, by decide, by decide,
    submit_missing_key_claim envMissing "u1" "a1" 2 3 plainMsgState
      (by decide) (by decide) (by decide)⟩

/-- C8: the clear command leaves messages equal to exactly one system
confirmation message and touches neither inputHistory nor historyIndex; the
reset command additionally empties inputHistory and sets historyIndex to -1;
neither command changes pinnedMessages. -/
theorem clear_reset_claim (s : ChatState) (f1 f2 : String) (n1 n2 : Nat) :
    ((handleSlashCommand "/clear" f1 n1 s).1.1.messages = [mkSys clearText f1 n1] ∧
     (mkSys clearText f1 n1).role = Role.system ∧
     (handleSlashCommand "/clear" f1 n1 s).1.1.inputHistory = s.inputHistory ∧
     (handleSlashCommand "/clear" f1 n1 s).1.1.historyIndex = s.historyIndex ∧
     (handleSlashCommand "/clear" f1 n1 s).1.1.pinnedMessages = s.pinnedMessages) ∧
    ((handleSlashCommand "/reset" f2 n2 s).1.1.messages = [mkSys resetText f2 n2] ∧
     (mkSys resetText f2 n2).role = Role.system ∧
     (handleSlashCommand "/reset" f2 n2 s).1.1.inputHistory = [] ∧
     (handleSlashCommand "/reset" f2 n2 s).1.1.historyIndex = -1 ∧
     (handleSlashCommand "/reset" f2 n2 s).1.1.pinnedMessages = s.pinnedMessages) :=
  ⟨⟨rfl, rfl, rfl, rfl, rfl⟩, ⟨rfl, rfl, rfl, rfl, rfl⟩⟩

/-- C9 counterexample: a 2xx payload whose text field is present but empty
still yields the placeholder, so the appended content equals the placeholder
on a payload where the field is not structurally absent. -/
theorem response_extraction_counterexample :
    extractGeneratedText emptyTextPayload = some "" ∧
    ¬(extractGeneratedText emptyTextPayload = none) ∧
    generatedTextOf emptyTextPayload = noResponseText ∧
    ¬(generatedTextOf emptyTextPayload = noResponseText ↔
        extractGeneratedText emptyTextPayload = none) ∧
    (handleSubmit envEmptyText "u1" "a1" 2 3 plainMsgState).state.messages =
      plainMsgState.messages ++
        [mkUser plainMsgState.input "u1" 2, mkAssistant noResponseText "a1" 3] :=
  ⟨by decide, by decide, by decide, by decide, by decide⟩

/-- C9 amended: on a 2xx the appended assistant content is the extracted
first generated text field; it equals that field whenever the field is
present and non empty, and equals the literal placeholder whenever the field
is structurally absent or is the empty string (the JS or operator also
replaces an empty string). -/
theorem submit_response_extraction_claim (env : ApiEnv) (uid aid : String)
    (t1 t2 : Nat) (s : ChatState) (p : GenerateContentResponse)
    (h1 : jsTrim s.input ≠ "") (h2 : startsWithSlash s.input = false)
    (h3 : keyTruthy env.apiKey = true) (h4 : env.result = ApiResult.ok p) :
    (handleSubmit env uid aid t1 t2 s).state.messages =
      s.messages ++ [mkUser s.input uid t1, mkAssistant (generatedTextOf p) aid t2] ∧
    ((extractGeneratedText p = none ∨ extractGeneratedText p = some "") →
      generatedTextOf p = noResponseText) ∧
    (extractGeneratedText p ≠ none → extractGeneratedText p ≠ some "" →
      generatedTextOf p = (extractGeneratedText p).getD "") := by
  unfold handleSubmit
  rw [if_neg h1, if_neg (by simp [h2]), if_neg (by simp [h3]), h4]
  refine ⟨by simp [List.append_assoc], ?_, ?_⟩
  · intro hcase
    rcases hcase with hnone | hempty
    · simp [generatedTextOf, jsOrString, hnone]
    · simp [generatedTextOf, jsOrString, hempty]
  · intro hne hnemp
    rcases hx : extractGeneratedText p with _ | t
    · exact absurd hx hne
    · have ht : t ≠ "" := by
        intro hte
        rw [hte] at hx
        exact hnemp hx
      simp [generatedTextOf, jsOrString, hx, ht]

/-- Witness for C9 amended at a payload carrying text "hi there". -/
theorem submit_response_extraction_claim_witness :
    jsTrim plainMsgState.input ≠ "" ∧
    startsWithSlash plainMsgState.input = false ∧
    keyTruthy envOk.apiKey = true ∧
    envOk.result = ApiResult.ok okPayload ∧
    ((handleSubmit envOk "u1" "a1" 2 3 plainMsgState).state.messages =
       plainMsgState.messages ++
         [mkUser plainMsgState.input "u1" 2,
          mkAssistant (generatedTextOf okPayload) "a1" 3] ∧
     ((extractGeneratedText okPayload = none ∨ extractGeneratedText okPayload = some "") →
       generatedTextOf okPayload = noResponseText) ∧
     (extractGeneratedText okPayload ≠ none → extractGeneratedText okPayload ≠ some "" →
       generatedTextOf okPayload = (extractGeneratedText okPayload).getD "")) :=
  ⟨by decide, by decide, by decide, by decide,
    submit_response_extraction_claim envOk "u1" "a1" 2 3 plainMsgState okPayload
      (by decide) (by decide) (by decide) (by decide)⟩

/-- C10: dispatching /save on an empty messages list raises the export
failure alert and creates no file, yet still appends exactly one system
message announcing a successful export; the success confirmation is appended
after whatever exportChat left, unconditionally (last conjunct, for an
arbitrary state). -/
theorem save_empty_claim (f g : String) (n o : Nat) (s s2 : ChatState)
    (h : s.messages = []) :
    (handleSlashCommand "/save" f n s).1.2.alerts = [exportAlertText] ∧
    (handleSlashCommand "/save" f n s).1.2.downloads = 0 ∧
    (handleSlashCommand "/save" f n s).1.1.messages = [mkSys saveText f n] ∧
    (mkSys saveText f n).role = Role.system ∧
    (handleSlashCommand "/save" g o s2).1.1.messages = s2.messages ++ [mkSys saveText g o] := by
  have hdp : handleSlashCommand "/save" f n s = (runCommand CommandKey.save f n s, true) := rfl
  have hdp2 : handleSlashCommand "/save" g o s2 = (runCommand CommandKey.save g o s2, true) := rfl
  have hexp : exportChat s = (s, { alerts := [exportAlertText] }) := by
    unfold exportChat
    rw [h]
    rfl
  rw [hdp, hdp2]
  refine ⟨?_, ?_, ?_, rfl, ?_⟩
  · show (exportChat s).2.alerts = [exportAlertText]
    rw [hexp]
  · show (exportChat s).2.downloads = 0
    rw [hexp]
  · show (appendSys saveText f n (exportChat s).1).messages = [mkSys saveText f n]
    rw [hexp]
    simp [appendSys, h]
  · show (appendSys saveText g o (exportChat s2).1).messages = s2.messages ++ [mkSys saveText g o]
    unfold exportChat
    split_ifs <;> rfl

/-- Witness for C10 on the fresh empty state. -/
theorem save_empty_claim_witness :
    initialState.messages = [] ∧
    ((handleSlashCommand "/save" "f1" 4 initialState).1.2.alerts = [exportAlertText] ∧
     (handleSlashCommand "/save" "f1" 4 initialState).1.2.downloads = 0 ∧
     (handleSlashCommand "/save" "f1" 4 initialState).1.1.messages = [mkSys saveText "f1" 4] ∧
     (mkSys saveText "f1" 4).role = Role.system ∧
     (handleSlashCommand "/save" "f2" 5 pinState).1.1.messages =
       pinState.messages ++ [mkSys saveText "f2" 5]) :=
  ⟨by decide, save_empty_claim "f1" "f2" 4 5 initialState pinState (by decide)⟩

end ChatSpec
